import Mathlib

/-!
Shallow embedding of `src/apps/web/src/components/Charts/VolumeChart/index.tsx`.

JavaScript numbers are modelled as rationals (`ℚ`), timestamps as `Nat`.
Ambient collaborators (the fiat-price formatter, the header date formatter,
the translation macro) are passed as explicit function arguments; the
`Math.random()` draw in the no-hover branch of the header is made an explicit
input `rand`.  Object reference identity (the `this.data !== data` check in
`VolumeChartModel.updateOptions`) is modelled by tagging every data sequence
with a reference id (`dataRef : Nat`) alongside its contents.
-/

namespace VolumeChart

/-- `PricePoint` from `graphql/data/util`: `{ timestamp: number, value: number }`. -/
structure PricePoint where
  timestamp : Nat
  value : ℚ
deriving DecidableEq, Repr

/-- `HistogramData<UTCTimestamp>`: one chart datum `{ value, time }`. -/
structure HistogramDatum where
  value : ℚ
  time : Nat
deriving DecidableEq, Repr

/-- `data` useMemo in `VolumeChart`:
`volumes?.map((volumePoint) => ({ value: volumePoint.value, time: volumePoint.timestamp })) ?? []`. -/
def chartData (volumes : Option (List PricePoint)) : List HistogramDatum :=
  match volumes with
  | some vs => vs.map fun volumePoint => { value := volumePoint.value, time := volumePoint.timestamp }
  | none => []

/-- `noFeesData = feeTier === undefined` in `VolumeChart`. -/
def noFeesData (feeTier : Option ℚ) : Bool :=
  feeTier.isNone

/-- `headerHeight: noFeesData ? 75 : 90` in the `params` useMemo of `VolumeChart`. -/
def headerHeight (feeTier : Option ℚ) : Nat :=
  if noFeesData feeTier then 75 else 90

/-- Modelled from the spec: `BIPS_BASE` is imported from `constants/misc`, which is
not part of the provided sources; the spec presumes the fixed divisor 10000
(a basis-points-like unit). -/
def BIPS_BASE : ℚ := 10000

/-- `TimePeriod` enum from `graphql/data/util` (not in the provided sources);
the spec glossary describes it as an enumerated duration selector. -/
inductive TimePeriod where
  | hour
  | day
  | week
  | month
  | year
deriving DecidableEq, Repr

/-- Modelled from the spec: `toHistoryDuration` from `graphql/data/util` is not in
the provided sources; it maps the time-period enum to its history-duration
name, which the header then lowercases. -/
def toHistoryDuration : TimePeriod → String
  | .hour => "HOUR"
  | .day => "DAY"
  | .week => "WEEK"
  | .month => "MONTH"
  | .year => "YEAR"

/-- The `{ volume, fees, time }` record computed by the `display` useMemo of
`VolumeChartHeader`. -/
structure DisplayStrings where
  volume : String
  fees : String
  time : String
deriving DecidableEq, Repr

/-- The `display` useMemo body of `VolumeChartHeader`.

`priceFormatter` stands for `(price?: number) => formatFiatPrice({ price, type:
NumberType.FiatTokenStatChartHeader })` (always invoked with a value here),
`headerDateFormatter` for the hook of the same name, and `rand` for the
`Math.random()` draw used to build `mockCumulativeVolume` in the no-hover
branch.  The `t` translation macro around the "Past …" label is modelled as
plain string interpolation in the active locale. -/
def computeDisplay (crosshairData : Option HistogramDatum) (feeTier : Option ℚ)
    (timePeriod : TimePeriod) (priceFormatter : ℚ → String)
    (headerDateFormatter : Nat → String) (rand : ℚ) : DisplayStrings :=
  match crosshairData with
  | none =>
    let mockCumulativeVolume := rand * 10 ^ 10
    { volume := priceFormatter mockCumulativeVolume
      fees := priceFormatter (mockCumulativeVolume * ((feeTier.getD 0) / BIPS_BASE / 100))
      time := "Past " ++ (toHistoryDuration timePeriod).toLower }
  | some d =>
    { volume := priceFormatter d.value
      fees := priceFormatter (d.value * ((feeTier.getD 0) / BIPS_BASE / 100))
      time := headerDateFormatter d.time }

/-- `theme` as consumed by `VolumeChartModel`: only `surface3` is read. -/
structure Theme where
  surface3 : String
deriving DecidableEq, Repr

/-- The slice of `VolumeChartModelParams` that `updateOptions` reads into model
state: the data sequence (its reference id plus contents), the theme, the
series color, and the header height.  The locale/formatter/layout options it
forwards verbatim to the chart engine are outside the model boundary. -/
structure ModelParams where
  dataRef : Nat
  data : List HistogramDatum
  theme : Theme
  color : String
  headerHeight : Nat
deriving DecidableEq, Repr

/-- Observable state of a `VolumeChartModel`: the stored data sequence
(`this.data`, as reference id plus contents), the data last pushed into the
histogram series via `setData`, the applied series color, the highlight
overlay's applied options, and counters for the `series.setData` /
`fitContent` engine calls. -/
structure ModelState where
  dataRef : Nat
  data : List HistogramDatum
  seriesData : List HistogramDatum
  seriesColor : String
  overlayColor : String
  overlayY : Nat
  setDataCalls : Nat
  fitContentCalls : Nat
deriving DecidableEq, Repr

/-- `VolumeChartModel.updateOptions`:
* if `this.data !== data` (reference identity, here: `dataRef` differs), store
  the new sequence, call `series.setData(data)` and `fitContent()`;
* always re-apply the series color (`applyOptions({ color, ... })`);
* always re-apply the highlight overlay's color (`theme.surface3`) and
  `crosshairYPosition` (`params.headerHeight`). -/
def updateOptions (s : ModelState) (params : ModelParams) : ModelState :=
  let s₁ :=
    if s.dataRef ≠ params.dataRef then
      { s with
        dataRef := params.dataRef
        data := params.data
        seriesData := params.data
        setDataCalls := s.setDataCalls + 1
        fitContentCalls := s.fitContentCalls + 1 }
    else s
  { s₁ with
    seriesColor := params.color
    overlayColor := params.theme.surface3
    overlayY := params.headerHeight }

/-- Sample concrete formatter used by closed evaluation theorems: distinguishes
a zero price from a nonzero one. -/
def sampleFormatter : ℚ → String :=
  fun q => if q = 0 then "$0" else "$large"

/-- Sample concrete header date formatter used by closed evaluation theorems. -/
def sampleDateFormatter : Nat → String :=
  fun n => toString n

/-- Sample concrete model state used by closed evaluation theorems. -/
def sampleState : ModelState :=
  { dataRef := 0, data := [], seriesData := [], seriesColor := "", overlayColor := ""
    overlayY := 0, setDataCalls := 0, fitContentCalls := 0 }

/-- Sample concrete params (with a choosable data reference id) used by closed
evaluation theorems. -/
def sampleParams (r : Nat) : ModelParams :=
  { dataRef := r, data := [], theme := { surface3 := "surface3" }, color := "accent1"
    headerHeight := 75 }

lemma updateOptions_of_eq (s : ModelState) (p : ModelParams) (h : s.dataRef = p.dataRef) :
    updateOptions s p =
      { s with seriesColor := p.color, overlayColor := p.theme.surface3
               overlayY := p.headerHeight } := by
  simp [updateOptions, h]

lemma updateOptions_of_ne (s : ModelState) (p : ModelParams) (h : s.dataRef ≠ p.dataRef) :
    updateOptions s p =
      { dataRef := p.dataRef, data := p.data, seriesData := p.data
        seriesColor := p.color, overlayColor := p.theme.surface3
        overlayY := p.headerHeight
        setDataCalls := s.setDataCalls + 1, fitContentCalls := s.fitContentCalls + 1 } := by
  simp [updateOptions, h]

lemma updateOptions_dataRef (s : ModelState) (p : ModelParams) :
    (updateOptions s p).dataRef = p.dataRef := by
  by_cases h : s.dataRef = p.dataRef
  · rw [updateOptions_of_eq s p h]
    exact h
  · rw [updateOptions_of_ne s p h]

/-- C1: for every non-empty `volumes` list, the derived chart data has the same
length, and in the same order the i-th chart datum has `value` equal to the
i-th price point's `value` and `time` equal to its `timestamp`. -/
theorem chartData_preserves_length_order (vs : List PricePoint) (hne : vs ≠ []) :
    (chartData (some vs)).length = vs.length ∧
    ∀ i (h : i < vs.length),
      (chartData (some vs))[i]? =
        some { value := (vs.get ⟨i, h⟩).value, time := (vs.get ⟨i, h⟩).timestamp } := by
  refine ⟨by simp [chartData], fun i h => ?_⟩
  simp [chartData, List.getElem?_map, List.getElem?_eq_getElem h, List.get_eq_getElem]

/-- Witness for C1 at the one-element list `[{timestamp := 1, value := 2}]`. -/
theorem chartData_preserves_length_order_witness :
    (chartData (some [{ timestamp := 1, value := 2 }])).length = 1 ∧
    (chartData (some [{ timestamp := 1, value := 2 }]))[0]? = some { value := 2, time := 1 } := by
  have h := chartData_preserves_length_order [{ timestamp := 1, value := 2 }] (by decide)
  exact ⟨h.1, h.2 0 (by decide)⟩

/-- C2: for a hovered crosshair datum with a fee tier present, the fees amount
passed to the formatter is `value × (feeTier / BIPS_BASE / 100)`; in
particular, with `value = 1000` and `feeTier = 30` it is `0.03`. -/
theorem computeDisplay_fees_hovered (d : HistogramDatum) (ft : ℚ) (tp : TimePeriod)
    (priceFormatter : ℚ → String) (headerDateFormatter : Nat → String) (rand : ℚ) :
    (computeDisplay (some d) (some ft) tp priceFormatter headerDateFormatter rand).fees
      = priceFormatter (d.value * (ft / BIPS_BASE / 100)) ∧
    (computeDisplay (some { value := 1000, time := d.time }) (some 30) tp priceFormatter
        headerDateFormatter rand).fees = priceFormatter (3 / 100) := by
  refine ⟨rfl, ?_⟩
  show priceFormatter ((1000 : ℚ) * ((30 : ℚ) / BIPS_BASE / 100)) = priceFormatter (3 / 100)
  norm_num [BIPS_BASE]

/-- C3: `noFeesData` is true iff `feeTier` is absent, and the header height is
75 when it is true and 90 when it is false. -/
theorem noFeesData_iff_and_headerHeight (feeTier : Option ℚ) :
    (noFeesData feeTier = true ↔ feeTier = none) ∧
    (noFeesData feeTier = true → headerHeight feeTier = 75) ∧
    (noFeesData feeTier = false → headerHeight feeTier = 90) := by
  cases feeTier <;> simp [noFeesData, headerHeight]

/-- Witness for C3 at `feeTier = none` and `feeTier = some 30`. -/
theorem noFeesData_iff_and_headerHeight_witness :
    headerHeight (none : Option ℚ) = 75 ∧ headerHeight (some 30) = 90 := by
  exact ⟨(noFeesData_iff_and_headerHeight none).2.1 (by decide),
         (noFeesData_iff_and_headerHeight (some 30)).2.2 (by decide)⟩

/-- C4: on two consecutive `updateOptions` calls, if the second call's data
sequence is the identical reference, `setData`/`fitContent` are not re-invoked;
if it is a fresh reference (even with identical contents), both are
re-invoked. -/
theorem updateOptions_data_identity (s : ModelState) (p₁ p₂ : ModelParams) :
    (p₂.dataRef = p₁.dataRef →
      (updateOptions (updateOptions s p₁) p₂).setDataCalls
        = (updateOptions s p₁).setDataCalls ∧
      (updateOptions (updateOptions s p₁) p₂).fitContentCalls
        = (updateOptions s p₁).fitContentCalls) ∧
    (p₂.dataRef ≠ p₁.dataRef → p₂.data = p₁.data →
      (updateOptions (updateOptions s p₁) p₂).setDataCalls
        = (updateOptions s p₁).setDataCalls + 1 ∧
      (updateOptions (updateOptions s p₁) p₂).fitContentCalls
        = (updateOptions s p₁).fitContentCalls + 1) := by
  have href : (updateOptions s p₁).dataRef = p₁.dataRef := updateOptions_dataRef s p₁
  constructor
  · intro h
    rw [updateOptions_of_eq (updateOptions s p₁) p₂ (href.trans h.symm)]
    exact ⟨rfl, rfl⟩
  · intro h _
    rw [updateOptions_of_ne (updateOptions s p₁) p₂ (fun hc => h (href.symm.trans hc).symm)]
    exact ⟨rfl, rfl⟩

/-- Witness for C4: a same-reference second call keeps both counters, a
fresh-reference second call with identical contents bumps both. -/
theorem updateOptions_data_identity_witness :
    ((updateOptions (updateOptions sampleState (sampleParams 1)) (sampleParams 1)).setDataCalls
        = (updateOptions sampleState (sampleParams 1)).setDataCalls ∧
      (updateOptions (updateOptions sampleState (sampleParams 1)) (sampleParams 1)).fitContentCalls
        = (updateOptions sampleState (sampleParams 1)).fitContentCalls) ∧
    ((updateOptions (updateOptions sampleState (sampleParams 1)) (sampleParams 2)).setDataCalls
        = (updateOptions sampleState (sampleParams 1)).setDataCalls + 1 ∧
      (updateOptions (updateOptions sampleState (sampleParams 1)) (sampleParams 2)).fitContentCalls
        = (updateOptions sampleState (sampleParams 1)).fitContentCalls + 1) := by
  exact ⟨(updateOptions_data_identity sampleState (sampleParams 1) (sampleParams 1)).1 rfl,
         (updateOptions_data_identity sampleState (sampleParams 1) (sampleParams 2)).2
           (by decide) rfl⟩

/-- C5: re-theming with the identical data reference re-applies the overlay
color and the series color but leaves both the stored data and the series data
unchanged. -/
theorem updateOptions_retheme (s : ModelState) (p : ModelParams)
    (h : p.dataRef = s.dataRef) :
    (updateOptions s p).overlayColor = p.theme.surface3 ∧
    (updateOptions s p).seriesColor = p.color ∧
    (updateOptions s p).data = s.data ∧
    (updateOptions s p).seriesData = s.seriesData := by
  rw [updateOptions_of_eq s p h.symm]
  exact ⟨rfl, rfl, rfl, rfl⟩

/-- Witness for C5 at the sample state and a same-reference param bundle. -/
theorem updateOptions_retheme_witness :
    (updateOptions sampleState (sampleParams 0)).overlayColor
        = (sampleParams 0).theme.surface3 ∧
    (updateOptions sampleState (sampleParams 0)).seriesColor = (sampleParams 0).color ∧
    (updateOptions sampleState (sampleParams 0)).data = sampleState.data ∧
    (updateOptions sampleState (sampleParams 0)).seriesData = sampleState.seriesData := by
  exact updateOptions_retheme sampleState (sampleParams 0) rfl

/-- C6 counterexample: with no crosshair datum and all claimed inputs held
fixed, two header computations differing only in the `Math.random()` draw
produce different display strings, so the display is not purely a function of
(crosshair datum, feeTier, timePeriod, locale/formatting context). -/
theorem computeDisplay_not_pure_counterexample :
    computeDisplay none none .day sampleFormatter sampleDateFormatter 0
      ≠ computeDisplay none none .day sampleFormatter sampleDateFormatter (1 / 2) := by
  intro h
  have hv := congrArg DisplayStrings.volume h
  simp only [computeDisplay, sampleFormatter] at hv
  norm_num at hv
  exact absurd hv (by decide)

/-- C6 (amended): with a crosshair datum present, the display strings are
purely a function of (datum, feeTier, timePeriod, formatting context); with no
datum, the time string still is, while volume and fees additionally depend on
the random draw. -/
theorem computeDisplay_pure_of_hover (d : HistogramDatum) (feeTier : Option ℚ)
    (tp : TimePeriod) (fmt : ℚ → String) (dfmt : Nat → String) (r₁ r₂ : ℚ) :
    computeDisplay (some d) feeTier tp fmt dfmt r₁
      = computeDisplay (some d) feeTier tp fmt dfmt r₂ ∧
    (computeDisplay none feeTier tp fmt dfmt r₁).time
      = (computeDisplay none feeTier tp fmt dfmt r₂).time :=
  ⟨rfl, rfl⟩

/-- C7: with `feeTier` absent, the fees amount is computed with the multiplier
`0 / BIPS_BASE / 100` in both the no-hover and the hovered branch. -/
theorem computeDisplay_fees_absent_feeTier (d : HistogramDatum) (tp : TimePeriod)
    (fmt : ℚ → String) (dfmt : Nat → String) (rand : ℚ) :
    (computeDisplay none none tp fmt dfmt rand).fees
      = fmt (rand * 10 ^ 10 * (0 / BIPS_BASE / 100)) ∧
    (computeDisplay (some d) none tp fmt dfmt rand).fees
      = fmt (d.value * (0 / BIPS_BASE / 100)) :=
  ⟨rfl, rfl⟩

/-- C8: with no crosshair datum, the time label is `"Past "` followed by the
lowercased history-duration name of the active time period. -/
theorem computeDisplay_time_no_hover (feeTier : Option ℚ) (tp : TimePeriod)
    (fmt : ℚ → String) (dfmt : Nat → String) (rand : ℚ) :
    (computeDisplay none feeTier tp fmt dfmt rand).time
      = "Past " ++ (toHistoryDuration tp).toLower :=
  rfl

/-- C9: with the `volumes` prop absent, the derived chart data is exactly the
empty list (never an undefined value). -/
theorem chartData_of_none : chartData none = [] :=
  rfl

/-- C10: within one no-hover header computation, the volume figure and the fees
figure are both derived from the same mock volume `rand × 10^10`, with fees
input `mockVolume × ((feeTier ?? 0) / BIPS_BASE / 100)`. -/
theorem computeDisplay_mock_consistent (feeTier : Option ℚ) (tp : TimePeriod)
    (fmt : ℚ → String) (dfmt : Nat → String) (rand : ℚ) :
    (computeDisplay none feeTier tp fmt dfmt rand).volume = fmt (rand * 10 ^ 10) ∧
    (computeDisplay none feeTier tp fmt dfmt rand).fees
      = fmt (rand * 10 ^ 10 * ((feeTier.getD 0) / BIPS_BASE / 100)) :=
  ⟨rfl, rfl⟩

end VolumeChart
